import Mathlib

/-!
Shallow embedding of `src/azure/storage/blob/requests/delete_blob_builder.rs`
from AzureSDKForRust: the `DeleteBlobBuilder` typestate builder and its
`finalize` request/response pipeline.

The Rust builder tracks, per mandatory parameter, a phantom type marker
(`ContainerNameSet`, `BlobNameSet`, `DeleteSnapshotMethodSet`, each `Yes`/`No`).
Here those markers are mirrored as value-level `Bool` fields, and `finalize`
availability (`impl DeleteBlobBuilder<'a, Yes, Yes, Yes>`) becomes the
predicate that all three markers are `true`.

Collaborators that live outside this repository slice (the `Client`,
`generate_blob_uri`, the header-writing trait impls,
`check_status_extract_headers_and_body`, `DeleteBlobResponse::from_headers`)
are modelled from the spec, each marked as such in its doc comment.
-/

namespace AzureSDK

/-- Modelled from the spec: the `Client` transport collaborator. Only the
data needed for URI templating (the account's blob endpoint) is kept; the
network behaviour is passed to `finalize_traced` as a function argument. -/
structure Client where
  blob_uri_base : String
deriving Repr, DecidableEq

/-- Modelled from the spec: an opaque lease token (a `Uuid` in the Rust core,
which is outside this repository slice). -/
abbrev LeaseId : Type := String

/-- Modelled from the spec: `DeleteSnapshotsMethod` enum, variants `Include`
(delete blob and snapshots) and `Only` (delete only the snapshots). -/
inductive DeleteSnapshotsMethod where
  | Include : DeleteSnapshotsMethod
  | Only : DeleteSnapshotsMethod
deriving Repr, DecidableEq

/-- Modelled from the spec: the wire value of the snapshot-deletion directive
header, determined by the enum variant (`include`, `only`). -/
def DeleteSnapshotsMethod.to_wire : DeleteSnapshotsMethod → String
  | .Include => "include"
  | .Only => "only"

/-- The builder state of `DeleteBlobBuilder<'a, ContainerNameSet, BlobNameSet,
DeleteSnapshotMethodSet>` (source lines 16-33). The three phantom type markers
are mirrored as `Bool` fields (`true` mirrors `Yes`, `false` mirrors `No`). -/
structure DeleteBlobBuilder where
  client : Client
  containerNameSet : Bool
  blobNameSet : Bool
  deleteSnapshotMethodSet : Bool
  container_name : Option String
  blob_name : Option String
  delete_snapshots_method : DeleteSnapshotsMethod
  timeout : Option Nat
  lease_id : Option LeaseId
  client_request_id : Option String
deriving Repr, DecidableEq

/-- `DeleteBlobBuilder::new` (source lines 35-51): all markers `No`, both name
fields `None`, all optional fields `None`, snapshot method defaulted to
`Include`. -/
def DeleteBlobBuilder.new (client : Client) : DeleteBlobBuilder :=
  { client := client
    containerNameSet := false
    blobNameSet := false
    deleteSnapshotMethodSet := false
    container_name := none
    blob_name := none
    delete_snapshots_method := DeleteSnapshotsMethod.Include
    timeout := none
    lease_id := none
    client_request_id := none }

/-- `ContainerNameSupport::with_container_name` (source lines 150-163):
rebuilds the struct with `container_name = Some v`, marker moved to `Yes`,
every other field carried over. -/
def DeleteBlobBuilder.with_container_name (b : DeleteBlobBuilder) (v : String) : DeleteBlobBuilder :=
  { client := b.client
    containerNameSet := true
    blobNameSet := b.blobNameSet
    deleteSnapshotMethodSet := b.deleteSnapshotMethodSet
    container_name := some v
    blob_name := b.blob_name
    delete_snapshots_method := b.delete_snapshots_method
    timeout := b.timeout
    lease_id := b.lease_id
    client_request_id := b.client_request_id }

/-- `BlobNameSupport::with_blob_name` (source lines 176-189). -/
def DeleteBlobBuilder.with_blob_name (b : DeleteBlobBuilder) (v : String) : DeleteBlobBuilder :=
  { client := b.client
    containerNameSet := b.containerNameSet
    blobNameSet := true
    deleteSnapshotMethodSet := b.deleteSnapshotMethodSet
    container_name := b.container_name
    blob_name := some v
    delete_snapshots_method := b.delete_snapshots_method
    timeout := b.timeout
    lease_id := b.lease_id
    client_request_id := b.client_request_id }

/-- `DeleteSnapshotsMethodSupport::with_delete_snapshots_method` (source
lines 202-216). -/
def DeleteBlobBuilder.with_delete_snapshots_method (b : DeleteBlobBuilder) (v : DeleteSnapshotsMethod) : DeleteBlobBuilder :=
  { client := b.client
    containerNameSet := b.containerNameSet
    blobNameSet := b.blobNameSet
    deleteSnapshotMethodSet := true
    container_name := b.container_name
    blob_name := b.blob_name
    delete_snapshots_method := v
    timeout := b.timeout
    lease_id := b.lease_id
    client_request_id := b.client_request_id }

/-- `TimeoutSupport::with_timeout` (source lines 228-241): optional field, the
marker columns are carried over unchanged. -/
def DeleteBlobBuilder.with_timeout (b : DeleteBlobBuilder) (v : Nat) : DeleteBlobBuilder :=
  { client := b.client
    containerNameSet := b.containerNameSet
    blobNameSet := b.blobNameSet
    deleteSnapshotMethodSet := b.deleteSnapshotMethodSet
    container_name := b.container_name
    blob_name := b.blob_name
    delete_snapshots_method := b.delete_snapshots_method
    timeout := some v
    lease_id := b.lease_id
    client_request_id := b.client_request_id }

/-- `LeaseIdSupport::with_lease_id` (source lines 254-268). -/
def DeleteBlobBuilder.with_lease_id (b : DeleteBlobBuilder) (v : LeaseId) : DeleteBlobBuilder :=
  { client := b.client
    containerNameSet := b.containerNameSet
    blobNameSet := b.blobNameSet
    deleteSnapshotMethodSet := b.deleteSnapshotMethodSet
    container_name := b.container_name
    blob_name := b.blob_name
    delete_snapshots_method := b.delete_snapshots_method
    timeout := b.timeout
    lease_id := some v
    client_request_id := b.client_request_id }

/-- `ClientRequestIdSupport::with_client_request_id` (source lines 280-294). -/
def DeleteBlobBuilder.with_client_request_id (b : DeleteBlobBuilder) (v : String) : DeleteBlobBuilder :=
  { client := b.client
    containerNameSet := b.containerNameSet
    blobNameSet := b.blobNameSet
    deleteSnapshotMethodSet := b.deleteSnapshotMethodSet
    container_name := b.container_name
    blob_name := b.blob_name
    delete_snapshots_method := b.delete_snapshots_method
    timeout := b.timeout
    lease_id := b.lease_id
    client_request_id := some v }

/-- `ContainerNameRequired::container_name` (source lines 66-76): only
callable at marker `Yes`; the Rust body is `self.container_name.unwrap()`,
embedded as `Option.get` under the proof that the option is populated. -/
def ContainerNameRequired.container_name (b : DeleteBlobBuilder) (h : b.container_name.isSome) : String :=
  b.container_name.get h

/-- `BlobNameRequired::blob_name` (source lines 78-88): the Rust body is
`self.blob_name.unwrap()`. -/
def BlobNameRequired.blob_name (b : DeleteBlobBuilder) (h : b.blob_name.isSome) : String :=
  b.blob_name.get h

/-- Modelled from the spec: `TimeoutOption::to_uri_parameter` (trait impl is
outside this repository slice) renders `timeout=<seconds>` when set. -/
def TimeoutOption.to_uri_parameter (b : DeleteBlobBuilder) : Option String :=
  b.timeout.map (fun t => "timeout=" ++ toString t)

/-- Modelled from the spec: `generate_blob_uri` URI-templating collaborator,
deterministic and pure given the account endpoint and the two identifiers
(`finalize` passes `None` for the snapshot argument, so it is omitted). -/
def generate_blob_uri (client : Client) (container_name blob_name : String) : String :=
  client.blob_uri_base ++ "/" ++ container_name ++ "/" ++ blob_name

/-- HTTP method of the wire request; `finalize` uses `Method::DELETE`. -/
inductive HttpMethod where
  | GET : HttpMethod
  | PUT : HttpMethod
  | DELETE : HttpMethod
deriving Repr, DecidableEq

/-- The wire-level request description handed to `Client::perform_request`. -/
structure HttpRequest where
  uri : String
  http_method : HttpMethod
  headers : List (String × String)
  body : Option String
deriving Repr, DecidableEq

/-- The transport-level response consumed by the pipeline. -/
structure HttpResponse where
  status : Nat
  headers : List (String × String)
  body : String
deriving Repr, DecidableEq

/-- Modelled from the spec: the error taxonomy of `AzureError` as seen by this
core (transport failure, unexpected status with actual code and body, response
parse failure; `MissingParameter` is unrepresentable in the typestate path). -/
inductive AzureError where
  | MissingParameter : String → AzureError
  | TransportError : String → AzureError
  | UnexpectedStatus : Nat → String → AzureError
  | ResponseParseError : String → AzureError
deriving Repr, DecidableEq

/-- Modelled from the spec: `check_status_extract_headers_and_body`
collaborator — validate the status code against the single expected success
code, otherwise an `UnexpectedStatus` error carrying the actual code and
body. -/
def check_status_extract_headers_and_body (resp : HttpResponse) (expected : Nat) :
    Except AzureError (List (String × String) × String) :=
  if resp.status = expected then Except.ok (resp.headers, resp.body)
  else Except.error (AzureError.UnexpectedStatus resp.status resp.body)

/-- The typed success record: at least the server-assigned request id, plus
the echoed client-request-id when present. -/
structure DeleteBlobResponse where
  request_id : String
  client_request_id : Option String
deriving Repr, DecidableEq

/-- Modelled from the spec: `DeleteBlobResponse::from_headers` collaborator —
a missing required response header surfaces as `ResponseParseError`, never a
silently defaulted value. -/
def DeleteBlobResponse.from_headers (headers : List (String × String)) :
    Except AzureError DeleteBlobResponse :=
  match headers.lookup "x-ms-request-id" with
  | some rid => Except.ok { request_id := rid, client_request_id := headers.lookup "x-ms-client-request-id" }
  | none => Except.error (AzureError.ResponseParseError "x-ms-request-id")

/-- URI assembly step of `finalize` (source lines 308-312): the generated
resource URI, with `?<timeout parameter>` appended exactly when the timeout
option renders one. -/
def finalize_uri (b : DeleteBlobBuilder) (hc : b.container_name.isSome) (hb : b.blob_name.isSome) : String :=
  let uri := generate_blob_uri b.client (ContainerNameRequired.container_name b hc) (BlobNameRequired.blob_name b hb)
  match TimeoutOption.to_uri_parameter b with
  | some nm => uri ++ "?" ++ nm
  | none => uri

/-- Header assembly of `finalize` (source lines 319-323): snapshot directive
always, then lease header iff set, then client-request-id header iff set
(header names and wire values modelled from the spec, the `add_header` trait
impls being outside this repository slice). -/
def finalize_headers (b : DeleteBlobBuilder) : List (String × String) :=
  [("x-ms-delete-snapshots", b.delete_snapshots_method.to_wire)] ++
  (match b.lease_id with
   | some l => [("x-ms-lease-id", l)]
   | none => []) ++
  (match b.client_request_id with
   | some c => [("x-ms-client-request-id", c)]
   | none => [])

/-- The single wire request assembled by `finalize` (source lines 316-325):
`DELETE`, the assembled URI, the assembled headers, no body. -/
def finalize_request (b : DeleteBlobBuilder) (hc : b.container_name.isSome) (hb : b.blob_name.isSome) : HttpRequest :=
  { uri := finalize_uri b hc hb
    http_method := HttpMethod.DELETE
    headers := finalize_headers b
    body := none }

/-- `finalize` pipeline (source lines 307-331), instrumented with the list of
requests handed to the transport collaborator: issue the one assembled
request, validate the status against 202, parse the headers. Each failing
stage short-circuits with its own error value. -/
def finalize_traced (b : DeleteBlobBuilder) (hc : b.container_name.isSome) (hb : b.blob_name.isSome)
    (transport : HttpRequest → Except AzureError HttpResponse) :
    Except AzureError DeleteBlobResponse × List HttpRequest :=
  let req := finalize_request b hc hb
  let result :=
    match transport req with
    | Except.error e => Except.error e
    | Except.ok resp =>
      match check_status_extract_headers_and_body resp 202 with
      | Except.error e => Except.error e
      | Except.ok (headers, _body) => DeleteBlobResponse.from_headers headers
  (result, [req])

/-- The result channel of `finalize`. -/
def finalize_run (b : DeleteBlobBuilder) (hc : b.container_name.isSome) (hb : b.blob_name.isSome)
    (transport : HttpRequest → Except AzureError HttpResponse) :
    Except AzureError DeleteBlobResponse :=
  (finalize_traced b hc hb transport).1

/-- One `with_*` call of the fluent interface, as trace data. -/
inductive BuilderCall where
  | withContainerName : String → BuilderCall
  | withBlobName : String → BuilderCall
  | withDeleteSnapshotsMethod : DeleteSnapshotsMethod → BuilderCall
  | withTimeout : Nat → BuilderCall
  | withLeaseId : LeaseId → BuilderCall
  | withClientRequestId : String → BuilderCall
deriving Repr, DecidableEq

/-- The seven stored parameters are spread over six settable fields. -/
inductive BuilderField where
  | containerField : BuilderField
  | blobField : BuilderField
  | snapshotsMethodField : BuilderField
  | timeoutField : BuilderField
  | leaseIdField : BuilderField
  | clientRequestIdField : BuilderField
deriving Repr, DecidableEq

/-- The field a call stores into. -/
def BuilderCall.field : BuilderCall → BuilderField
  | .withContainerName _ => .containerField
  | .withBlobName _ => .blobField
  | .withDeleteSnapshotsMethod _ => .snapshotsMethodField
  | .withTimeout _ => .timeoutField
  | .withLeaseId _ => .leaseIdField
  | .withClientRequestId _ => .clientRequestIdField

/-- Dispatch one trace call to the corresponding `with_*` operation. -/
def applyCall (b : DeleteBlobBuilder) : BuilderCall → DeleteBlobBuilder
  | .withContainerName v => b.with_container_name v
  | .withBlobName v => b.with_blob_name v
  | .withDeleteSnapshotsMethod v => b.with_delete_snapshots_method v
  | .withTimeout v => b.with_timeout v
  | .withLeaseId v => b.with_lease_id v
  | .withClientRequestId v => b.with_client_request_id v

/-- Apply a whole fluent chain, left to right. -/
def applyCalls (b : DeleteBlobBuilder) (tr : List BuilderCall) : DeleteBlobBuilder :=
  tr.foldl applyCall b

/-- `finalize` is a member only of the `<Yes, Yes, Yes>` instantiation
(source line 306): availability is exactly all three markers set. -/
def finalizeAvailable (b : DeleteBlobBuilder) : Bool :=
  b.containerNameSet && b.blobNameSet && b.deleteSnapshotMethodSet

/-- Whether a trace call is the mandatory container-name setter. -/
def isContainerNameCall : BuilderCall → Bool
  | .withContainerName _ => true
  | _ => false

/-- Whether a trace call is the mandatory blob-name setter. -/
def isBlobNameCall : BuilderCall → Bool
  | .withBlobName _ => true
  | _ => false

/-- Whether a trace call is the mandatory snapshot-method setter. -/
def isSnapshotsMethodCall : BuilderCall → Bool
  | .withDeleteSnapshotsMethod _ => true
  | _ => false

/-- The spec's description of one `with_*` step, stated independently of the
source embedding: set the one targeted field (marking it when mandatory) and
structurally copy everything else. Used to compare `applyCall` against the
spec's copy-on-write wording. -/
def specCopyOnWrite (b : DeleteBlobBuilder) : BuilderCall → DeleteBlobBuilder
  | .withContainerName v => { b with containerNameSet := true, container_name := some v }
  | .withBlobName v => { b with blobNameSet := true, blob_name := some v }
  | .withDeleteSnapshotsMethod v => { b with deleteSnapshotMethodSet := true, delete_snapshots_method := v }
  | .withTimeout v => { b with timeout := some v }
  | .withLeaseId v => { b with lease_id := some v }
  | .withClientRequestId v => { b with client_request_id := some v }

/-- A concrete client handle, used by the concrete witnesses below. -/
def someClient : Client := { blob_uri_base := "https://acc" }

/-- A concrete fully-populated builder: all three mandatory setters called,
all three optional setters called. -/
def completeBuilder : DeleteBlobBuilder :=
  ((((((DeleteBlobBuilder.new someClient).with_container_name "c").with_blob_name
    "b").with_delete_snapshots_method DeleteSnapshotsMethod.Only).with_timeout
    30).with_lease_id "lease-1").with_client_request_id "req-7"

/-- A concrete failing transport response (status 404). -/
def someResponse : HttpResponse :=
  { status := 404
    headers := [("x-ms-request-id", "abc")]
    body := "nf" }

/-!
Helper lemmas: how one trace call, and then a whole trace, act on each marker
and each stored-name option.
-/

theorem completeBuilder_cn : completeBuilder.container_name.isSome := rfl

theorem completeBuilder_bn : completeBuilder.blob_name.isSome := rfl

theorem applyCalls_nil (b : DeleteBlobBuilder) : applyCalls b [] = b := rfl

theorem applyCalls_cons (b : DeleteBlobBuilder) (c : BuilderCall) (tr : List BuilderCall) :
    applyCalls b (c :: tr) = applyCalls (applyCall b c) tr := rfl

theorem containerNameSet_applyCall (b : DeleteBlobBuilder) (c : BuilderCall) :
    (applyCall b c).containerNameSet = (b.containerNameSet || isContainerNameCall c) := by
  cases c <;>
    simp [applyCall, isContainerNameCall, DeleteBlobBuilder.with_container_name,
      DeleteBlobBuilder.with_blob_name, DeleteBlobBuilder.with_delete_snapshots_method,
      DeleteBlobBuilder.with_timeout, DeleteBlobBuilder.with_lease_id,
      DeleteBlobBuilder.with_client_request_id]

theorem blobNameSet_applyCall (b : DeleteBlobBuilder) (c : BuilderCall) :
    (applyCall b c).blobNameSet = (b.blobNameSet || isBlobNameCall c) := by
  cases c <;>
    simp [applyCall, isBlobNameCall, DeleteBlobBuilder.with_container_name,
      DeleteBlobBuilder.with_blob_name, DeleteBlobBuilder.with_delete_snapshots_method,
      DeleteBlobBuilder.with_timeout, DeleteBlobBuilder.with_lease_id,
      DeleteBlobBuilder.with_client_request_id]

theorem deleteSnapshotMethodSet_applyCall (b : DeleteBlobBuilder) (c : BuilderCall) :
    (applyCall b c).deleteSnapshotMethodSet = (b.deleteSnapshotMethodSet || isSnapshotsMethodCall c) := by
  cases c <;>
    simp [applyCall, isSnapshotsMethodCall, DeleteBlobBuilder.with_container_name,
      DeleteBlobBuilder.with_blob_name, DeleteBlobBuilder.with_delete_snapshots_method,
      DeleteBlobBuilder.with_timeout, DeleteBlobBuilder.with_lease_id,
      DeleteBlobBuilder.with_client_request_id]

theorem container_isSome_applyCall (b : DeleteBlobBuilder) (c : BuilderCall) :
    (applyCall b c).container_name.isSome = (b.container_name.isSome || isContainerNameCall c) := by
  cases c <;>
    simp [applyCall, isContainerNameCall, DeleteBlobBuilder.with_container_name,
      DeleteBlobBuilder.with_blob_name, DeleteBlobBuilder.with_delete_snapshots_method,
      DeleteBlobBuilder.with_timeout, DeleteBlobBuilder.with_lease_id,
      DeleteBlobBuilder.with_client_request_id]

theorem blob_isSome_applyCall (b : DeleteBlobBuilder) (c : BuilderCall) :
    (applyCall b c).blob_name.isSome = (b.blob_name.isSome || isBlobNameCall c) := by
  cases c <;>
    simp [applyCall, isBlobNameCall, DeleteBlobBuilder.with_container_name,
      DeleteBlobBuilder.with_blob_name, DeleteBlobBuilder.with_delete_snapshots_method,
      DeleteBlobBuilder.with_timeout, DeleteBlobBuilder.with_lease_id,
      DeleteBlobBuilder.with_client_request_id]

theorem containerNameSet_applyCalls (b : DeleteBlobBuilder) (tr : List BuilderCall) :
    (applyCalls b tr).containerNameSet = (b.containerNameSet || tr.any isContainerNameCall) := by
  induction tr generalizing b with
  | nil => simp [applyCalls_nil]
  | cons c tr ih =>
    rw [applyCalls_cons, ih, containerNameSet_applyCall, List.any_cons, Bool.or_assoc]

theorem blobNameSet_applyCalls (b : DeleteBlobBuilder) (tr : List BuilderCall) :
    (applyCalls b tr).blobNameSet = (b.blobNameSet || tr.any isBlobNameCall) := by
  induction tr generalizing b with
  | nil => simp [applyCalls_nil]
  | cons c tr ih =>
    rw [applyCalls_cons, ih, blobNameSet_applyCall, List.any_cons, Bool.or_assoc]

theorem deleteSnapshotMethodSet_applyCalls (b : DeleteBlobBuilder) (tr : List BuilderCall) :
    (applyCalls b tr).deleteSnapshotMethodSet = (b.deleteSnapshotMethodSet || tr.any isSnapshotsMethodCall) := by
  induction tr generalizing b with
  | nil => simp [applyCalls_nil]
  | cons c tr ih =>
    rw [applyCalls_cons, ih, deleteSnapshotMethodSet_applyCall, List.any_cons, Bool.or_assoc]

theorem container_isSome_applyCalls (b : DeleteBlobBuilder) (tr : List BuilderCall) :
    (applyCalls b tr).container_name.isSome = (b.container_name.isSome || tr.any isContainerNameCall) := by
  induction tr generalizing b with
  | nil => simp [applyCalls_nil]
  | cons c tr ih =>
    rw [applyCalls_cons, ih, container_isSome_applyCall, List.any_cons, Bool.or_assoc]

theorem blob_isSome_applyCalls (b : DeleteBlobBuilder) (tr : List BuilderCall) :
    (applyCalls b tr).blob_name.isSome = (b.blob_name.isSome || tr.any isBlobNameCall) := by
  induction tr generalizing b with
  | nil => simp [applyCalls_nil]
  | cons c tr ih =>
    rw [applyCalls_cons, ih, blob_isSome_applyCall, List.any_cons, Bool.or_assoc]

/-- Claim C1: starting from `new()`, `finalize` is available on the builder
reached by a fluent chain exactly when the chain contains at least one
`with_container_name`, at least one `with_blob_name`, and at least one
`with_delete_snapshots_method` — in any order; a builder missing at least one
mandatory call never admits `finalize`. -/
theorem finalize_available_iff_mandatory_supplied (client : Client) (tr : List BuilderCall) :
    finalizeAvailable (applyCalls (DeleteBlobBuilder.new client) tr) = true ↔
      (tr.any isContainerNameCall = true ∧ tr.any isBlobNameCall = true ∧
        tr.any isSnapshotsMethodCall = true) := by
  simp [finalizeAvailable, containerNameSet_applyCalls, blobNameSet_applyCalls,
    deleteSnapshotMethodSet_applyCalls, DeleteBlobBuilder.new, and_assoc]

/-- Claim C2: `with_*` calls targeting distinct fields commute — both orders
produce the same stored parameter values and the same completeness markers. -/
theorem with_calls_commute (b : DeleteBlobBuilder) (c1 c2 : BuilderCall)
    (h : c1.field ≠ c2.field) :
    applyCall (applyCall b c1) c2 = applyCall (applyCall b c2) c1 := by
  cases c1 <;> cases c2 <;> first
    | rfl
    | exact absurd rfl h

/-- Witness for C2 at concrete inputs: setting the container name and then
the timeout equals setting them in the other order. -/
theorem with_calls_commute_witness :
    applyCall (applyCall (DeleteBlobBuilder.new { blob_uri_base := "https://acc" })
        (BuilderCall.withContainerName "c")) (BuilderCall.withTimeout 30) =
      applyCall (applyCall (DeleteBlobBuilder.new { blob_uri_base := "https://acc" })
        (BuilderCall.withTimeout 30)) (BuilderCall.withContainerName "c") :=
  with_calls_commute (DeleteBlobBuilder.new { blob_uri_base := "https://acc" })
    (BuilderCall.withContainerName "c") (BuilderCall.withTimeout 30) (by decide)

/-- Claim C3: every `with_*` step is a pure copy-on-write: it equals the
spec's description — store the one targeted value (marking the field when
mandatory) and structurally copy every other field, the client handle
included, from the input builder. -/
theorem applyCall_eq_specCopyOnWrite (b : DeleteBlobBuilder) (c : BuilderCall) :
    applyCall b c = specCopyOnWrite b c := by
  cases c <;> rfl

/-- Claim C4: two setters targeting the same field compose to the last write
alone: the earlier write (value and marker effect alike) is fully overwritten,
and with both calls equal this gives idempotence of repeated `with_*` calls. -/
theorem with_same_field_last_write_wins (b : DeleteBlobBuilder) (c1 c2 : BuilderCall)
    (h : c1.field = c2.field) :
    applyCall (applyCall b c1) c2 = applyCall b c2 := by
  cases c1 <;> cases c2 <;> first
    | rfl
    | simp [BuilderCall.field] at h

/-- Witness for C4 at concrete inputs: setting the timeout to 15 and then to
30 equals setting it to 30 once. -/
theorem with_same_field_last_write_wins_witness :
    applyCall (applyCall (DeleteBlobBuilder.new { blob_uri_base := "https://acc" })
        (BuilderCall.withTimeout 15)) (BuilderCall.withTimeout 30) =
      applyCall (DeleteBlobBuilder.new { blob_uri_base := "https://acc" })
        (BuilderCall.withTimeout 30) :=
  with_same_field_last_write_wins (DeleteBlobBuilder.new { blob_uri_base := "https://acc" })
    (BuilderCall.withTimeout 15) (BuilderCall.withTimeout 30) (by decide)

/-- Claim C9: `new(client)` marks no mandatory field as set (so `finalize` is
not yet available), leaves both names and all three optional fields absent,
and defaults `delete_snapshots_method` to `Include`. -/
theorem new_builder_initial_state (client : Client) :
    (DeleteBlobBuilder.new client).containerNameSet = false ∧
    (DeleteBlobBuilder.new client).blobNameSet = false ∧
    (DeleteBlobBuilder.new client).deleteSnapshotMethodSet = false ∧
    (DeleteBlobBuilder.new client).container_name = none ∧
    (DeleteBlobBuilder.new client).blob_name = none ∧
    (DeleteBlobBuilder.new client).timeout = none ∧
    (DeleteBlobBuilder.new client).lease_id = none ∧
    (DeleteBlobBuilder.new client).client_request_id = none ∧
    (DeleteBlobBuilder.new client).delete_snapshots_method = DeleteSnapshotsMethod.Include ∧
    (DeleteBlobBuilder.new client).client = client ∧
    finalizeAvailable (DeleteBlobBuilder.new client) = false :=
  ⟨rfl, rfl, rfl, rfl, rfl, rfl, rfl, rfl, rfl, rfl, rfl⟩

/-- Claim C10: on every builder reachable from `new()` by a fluent chain, a
`Yes` container marker guarantees the stored `container_name` is populated and
a `Yes` blob marker guarantees the stored `blob_name` is populated, so the
`unwrap` inside `ContainerNameRequired::container_name` and
`BlobNameRequired::blob_name` (callable only at marker `Yes`) cannot panic. -/
theorem marker_implies_stored_reachable (client : Client) (tr : List BuilderCall) :
    ((applyCalls (DeleteBlobBuilder.new client) tr).containerNameSet = true →
      (applyCalls (DeleteBlobBuilder.new client) tr).container_name.isSome = true) ∧
    ((applyCalls (DeleteBlobBuilder.new client) tr).blobNameSet = true →
      (applyCalls (DeleteBlobBuilder.new client) tr).blob_name.isSome = true) := by
  rw [containerNameSet_applyCalls, container_isSome_applyCalls,
    blobNameSet_applyCalls, blob_isSome_applyCalls]
  exact ⟨fun h => h, fun h => h⟩

/-- Witness for C10 at a concrete trace: after setting the container name,
the marker is set and the stored option is populated. -/
theorem marker_implies_stored_reachable_witness :
    (applyCalls (DeleteBlobBuilder.new { blob_uri_base := "https://acc" })
      [BuilderCall.withContainerName "c"]).container_name.isSome = true :=
  (marker_implies_stored_reachable { blob_uri_base := "https://acc" }
    [BuilderCall.withContainerName "c"]).1 rfl

/-- Claim C5: the request URI assembled by `finalize` is the generated
resource URI with `?timeout=<seconds>` appended exactly when `timeout` is set;
when it is unset the URI is exactly the generated resource URI, and in either
case no other query parameter is added. -/
theorem finalize_uri_timeout_query (b : DeleteBlobBuilder)
    (hc : b.container_name.isSome) (hb : b.blob_name.isSome) :
    finalize_uri b hc hb =
      match b.timeout with
      | some t =>
        generate_blob_uri b.client (ContainerNameRequired.container_name b hc)
          (BlobNameRequired.blob_name b hb) ++ "?timeout=" ++ toString t
      | none =>
        generate_blob_uri b.client (ContainerNameRequired.container_name b hc)
          (BlobNameRequired.blob_name b hb) := by
  cases ht : b.timeout with
  | none => simp [finalize_uri, TimeoutOption.to_uri_parameter, ht]
  | some t =>
    have hlit : ("?" ++ "timeout=" : String) = "?timeout=" := rfl
    simp [finalize_uri, TimeoutOption.to_uri_parameter, ht, String.append_assoc]
    rw [← String.append_assoc "?" "timeout=" (toString t), hlit]

/-- Witness for C5 at the concrete complete builder (timeout set to 30). -/
theorem finalize_uri_timeout_query_witness :
    finalize_uri completeBuilder completeBuilder_cn completeBuilder_bn =
      generate_blob_uri completeBuilder.client
        (ContainerNameRequired.container_name completeBuilder completeBuilder_cn)
        (BlobNameRequired.blob_name completeBuilder completeBuilder_bn) ++
        "?timeout=" ++ toString 30 :=
  finalize_uri_timeout_query completeBuilder completeBuilder_cn completeBuilder_bn

/-- Claim C6: the single request assembled by `finalize` uses method `DELETE`
with an empty body; its headers always contain the snapshot-deletion directive
(wire value from the enum variant), contain the lease header iff `lease_id` is
set, and contain the client-request-id header iff `client_request_id` is
set. -/
theorem finalize_request_shape (b : DeleteBlobBuilder)
    (hc : b.container_name.isSome) (hb : b.blob_name.isSome) :
    (finalize_request b hc hb).http_method = HttpMethod.DELETE ∧
    (finalize_request b hc hb).body = none ∧
    ("x-ms-delete-snapshots", b.delete_snapshots_method.to_wire) ∈
      (finalize_request b hc hb).headers ∧
    ((∃ v, ("x-ms-lease-id", v) ∈ (finalize_request b hc hb).headers) ↔
      b.lease_id.isSome = true) ∧
    ((∃ v, ("x-ms-client-request-id", v) ∈ (finalize_request b hc hb).headers) ↔
      b.client_request_id.isSome = true) := by
  refine ⟨rfl, rfl, ?_, ?_, ?_⟩ <;>
    cases hl : b.lease_id <;> cases hr : b.client_request_id <;>
      simp [finalize_request, finalize_headers, hl, hr]

/-- Witness for C6 at the concrete complete builder (lease and
client-request-id both set, snapshot method `Only`). -/
theorem finalize_request_shape_witness :
    (finalize_request completeBuilder completeBuilder_cn completeBuilder_bn).http_method =
      HttpMethod.DELETE ∧
    (finalize_request completeBuilder completeBuilder_cn completeBuilder_bn).body = none ∧
    ("x-ms-delete-snapshots", completeBuilder.delete_snapshots_method.to_wire) ∈
      (finalize_request completeBuilder completeBuilder_cn completeBuilder_bn).headers ∧
    ((∃ v, ("x-ms-lease-id", v) ∈
        (finalize_request completeBuilder completeBuilder_cn completeBuilder_bn).headers) ↔
      completeBuilder.lease_id.isSome = true) ∧
    ((∃ v, ("x-ms-client-request-id", v) ∈
        (finalize_request completeBuilder completeBuilder_cn completeBuilder_bn).headers) ↔
      completeBuilder.client_request_id.isSome = true) :=
  finalize_request_shape completeBuilder completeBuilder_cn completeBuilder_bn

/-- Claim C7: `finalize` validates the status against the single success code
202: any other status yields `UnexpectedStatus` with the actual code and body,
independently of the response headers (so header parsing is never reached); a
202 response is parsed by `from_headers`, whose failure on a missing required
header is the `ResponseParseError` value, never a silently defaulted record. -/
theorem finalize_status_validation (b : DeleteBlobBuilder)
    (hc : b.container_name.isSome) (hb : b.blob_name.isSome) (resp : HttpResponse) :
    finalize_run b hc hb (fun _ => Except.ok resp) =
      (if resp.status = 202 then DeleteBlobResponse.from_headers resp.headers
       else Except.error (AzureError.UnexpectedStatus resp.status resp.body)) ∧
    ((resp.headers.lookup "x-ms-request-id" = none) ↔
      DeleteBlobResponse.from_headers resp.headers =
        Except.error (AzureError.ResponseParseError "x-ms-request-id")) := by
  constructor
  · by_cases hs : resp.status = 202 <;>
      simp [finalize_run, finalize_traced, check_status_extract_headers_and_body, hs]
  · cases hl : resp.headers.lookup "x-ms-request-id" <;>
      simp [DeleteBlobResponse.from_headers, hl]

/-- Witness for C7 at the concrete complete builder and the concrete 404
response. -/
theorem finalize_status_validation_witness :
    finalize_run completeBuilder completeBuilder_cn completeBuilder_bn
        (fun _ => Except.ok someResponse) =
      (if someResponse.status = 202 then DeleteBlobResponse.from_headers someResponse.headers
       else Except.error (AzureError.UnexpectedStatus someResponse.status someResponse.body)) ∧
    ((someResponse.headers.lookup "x-ms-request-id" = none) ↔
      DeleteBlobResponse.from_headers someResponse.headers =
        Except.error (AzureError.ResponseParseError "x-ms-request-id")) :=
  finalize_status_validation completeBuilder completeBuilder_cn completeBuilder_bn someResponse

/-- Claim C8: each `finalize` call hands the transport collaborator exactly
the one assembled request, and its result channel is the plain monadic
composition transport-then-status-check-then-parse, so each stage's error
value propagates unmodified (`Except.bind` short-circuits on `error`), with
nothing swallowed, recovered, or retried. -/
theorem finalize_single_request_and_propagation (b : DeleteBlobBuilder)
    (hc : b.container_name.isSome) (hb : b.blob_name.isSome)
    (transport : HttpRequest → Except AzureError HttpResponse) :
    (finalize_traced b hc hb transport).2 = [finalize_request b hc hb] ∧
    (finalize_traced b hc hb transport).1 =
      (transport (finalize_request b hc hb)).bind (fun resp =>
        (check_status_extract_headers_and_body resp 202).bind (fun pair =>
          DeleteBlobResponse.from_headers pair.1)) := by
  refine ⟨rfl, ?_⟩
  cases htr : transport (finalize_request b hc hb) with
  | error e => simp [finalize_traced, htr, Except.bind]
  | ok resp =>
    cases hck : check_status_extract_headers_and_body resp 202 with
    | error e => simp [finalize_traced, htr, hck, Except.bind]
    | ok pair =>
      cases pair
      simp [finalize_traced, htr, hck, Except.bind]

/-- Witness for C8 at the concrete complete builder and a transport that
fails outright. -/
theorem finalize_single_request_and_propagation_witness :
    (finalize_traced completeBuilder completeBuilder_cn completeBuilder_bn
        (fun _ => Except.error (AzureError.TransportError "down"))).2 =
      [finalize_request completeBuilder completeBuilder_cn completeBuilder_bn] ∧
    (finalize_traced completeBuilder completeBuilder_cn completeBuilder_bn
        (fun _ => Except.error (AzureError.TransportError "down"))).1 =
      ((fun _ => Except.error (AzureError.TransportError "down") :
          HttpRequest → Except AzureError HttpResponse)
        (finalize_request completeBuilder completeBuilder_cn completeBuilder_bn)).bind
        (fun resp => (check_status_extract_headers_and_body resp 202).bind (fun pair =>
          DeleteBlobResponse.from_headers pair.1)) :=
  finalize_single_request_and_propagation completeBuilder completeBuilder_cn
    completeBuilder_bn (fun _ => Except.error (AzureError.TransportError "down"))

end AzureSDK
